import Mathlib

/-!
# Phorge navigation core — shallow embedding and verification

This file embeds the navigation-tree core of the Phorge TUI
(`src/phorge/widgets/server_tree.py`, `src/phorge/widgets/detail_panel.py`,
`src/phorge/screens/main.py`, the ip/port resolution of `src/phorge/app.py`,
and the data model of `src/phorge/api/models.py` /
`src/phorge/api/exceptions.py`) and proves properties of the tree
population, lazy site loading, detail-panel swapping and error handling.

Python conventions used throughout the embedding:
* optional values (`x | None`) become `Option`;
* Python truthiness on an optional string (`if not ip:`) is `truthyStr`:
  `None` and `""` are falsy;
* an exception raised by a statement is an `Except`/`Option PyExc` outcome;
* machine integers are `Int` (Python ints are unbounded, no overflow).
-/

namespace Phorge

/-- `NodeType` from `server_tree.py`: identifies what kind of data a tree
node represents. -/
inductive NodeType where
  | SERVER_ROOT
  | SERVER_INFO
  | SITES_GROUP
  | SITE_ROOT
  | SITE_INFO
  | DEPLOYMENTS
  | DEPLOYMENT_SCRIPT
  | LOGS
  | ENVIRONMENT
  | WORKERS
  | BACKUPS
  | DOMAINS
  | DATABASES_SITE
  | SSL_CERTIFICATES
  | COMMANDS
  | GIT_REPOSITORY
  | SSH_KEYS
  | DAEMONS
  | FIREWALL_RULES
  | SCHEDULED_JOBS
  | DATABASES_SERVER
  | DATABASE_USERS
  deriving DecidableEq, Repr

/-- `NodeData` from `server_tree.py`: the dataclass attached to each tree
node, with the source's defaults.  `server_id` is annotated `int` in the
source, but `_add_site_node` assigns it `site.server_id`, which
`models.Site` types `int | None`; the embedding therefore uses
`Option Int`.  Server-side constructors always supply `some server.id`. -/
structure NodeData where
  node_type : NodeType
  server_id : Option Int
  site_id : Option Int := none
  label : String := ""
  server_ip : Option String := none
  ssh_port : Int := 22
  site_name : Option String := none
  site_directory : Option String := none
  loaded : Bool := false
  deriving DecidableEq, Repr

/-- Python truthiness of an optional string: `None` and `""` are falsy. -/
def truthyStr : Option String → Bool
  | none => false
  | some s => s != ""

/-- `models.Server` (`models.py`, lines 29–57): the fields read by the
embedded tree operations (`id`, `name`, `ip_address`, `ssh_port`), with the
source's defaults.  The remaining fields (`region`, `php_version`, …) are
never read by the navigation core and are omitted. -/
structure Server where
  id : Int
  name : String
  ip_address : Option String := none
  ssh_port : Int := 22
  deriving DecidableEq, Repr

/-- `models.Site` (`models.py`, lines 60–88): every declared field.
`tags : list[dict]` is modelled as a list of association lists.
Note that the model declares *no* `web_directory` field, and `_ForgeModel`
configures `extra="ignore"`, so a `web_directory` key in the API response
is discarded rather than stored. -/
structure Site where
  id : Int
  server_id : Option Int := none
  name : String
  directory : Option String := none
  repository : Option String := none
  repository_provider : Option String := none
  repository_branch : Option String := none
  repository_status : Option String := none
  quick_deploy : Bool := false
  deployment_url : Option String := none
  status : Option String := none
  project_type : Option String := none
  php_version : Option String := none
  app : Option String := none
  wildcards : Bool := false
  aliases : List String := []
  is_secured : Bool := false
  tags : List (List (String × String)) := []
  deriving DecidableEq, Repr

/-- The exception taxonomy relevant to the embedded code
(`exceptions.py` plus Python's built-in exceptions):
`ForgeAPIError` and its four subclasses, `AttributeError`, and a stand-in
for any other unexpected exception. -/
inductive PyExc where
  | forgeAPIError
  | forgeAuthenticationError
  | forgeNotFoundError
  | forgeValidationError
  | forgeRateLimitError
  | attributeError
  | otherError
  deriving DecidableEq, Repr

/-- `isinstance(e, ForgeAPIError)`: the four subclasses in `exceptions.py`
and the base class itself. -/
def PyExc.isForgeAPIError : PyExc → Bool
  | .forgeAPIError => true
  | .forgeAuthenticationError => true
  | .forgeNotFoundError => true
  | .forgeValidationError => true
  | .forgeRateLimitError => true
  | .attributeError => false
  | .otherError => false

/-- A node of the Textual `Tree` widget: rendered label, attached data,
expansion flag and children, in insertion order.  `add_leaf` creates a node
with no children; `add` with `expand=False` (the default) creates a
collapsed node. -/
structure TNode where
  label : String
  data : Option NodeData
  expanded : Bool := false
  children : List TNode := []

/-- The `ServerTree` widget state observed by the embedded operations: the
root's label, data, expansion flag, and children.  `ServerTree.__init__`
calls `Tree("Servers")`, so the root starts with label `"Servers"`, no
data, collapsed, and no children. -/
structure ServerTreeState where
  rootLabel : String := "Servers"
  rootData : Option NodeData := none
  rootExpanded : Bool := false
  rootChildren : List TNode := []

/-- The freshly constructed `ServerTree`. -/
def serverTreeInit : ServerTreeState := {}

/-- `ip_display = server.ip_address or "no ip"` in `_add_server_node`. -/
def ipDisplay (server : Server) : String :=
  match server.ip_address with
  | none => "no ip"
  | some ip => if ip != "" then ip else "no ip"

/-- The `NodeData` of the `SERVER_ROOT` node built by `_add_server_node`. -/
def serverRootData (server : Server) : NodeData :=
  { node_type := .SERVER_ROOT
    server_id := some server.id
    label := server.name
    server_ip := server.ip_address
    ssh_port := server.ssh_port }

/-- The `NodeData` of the `SERVER_INFO` leaf built by `_add_server_node`. -/
def serverInfoData (server : Server) : NodeData :=
  { node_type := .SERVER_INFO
    server_id := some server.id
    label := server.name
    server_ip := server.ip_address
    ssh_port := server.ssh_port }

/-- The `NodeData` of the `SITES_GROUP` node built by `_add_server_node`
(`loaded` keeps its default `False`). -/
def sitesGroupData (server : Server) : NodeData :=
  { node_type := .SITES_GROUP
    server_id := some server.id
    label := "Sites"
    server_ip := server.ip_address
    ssh_port := server.ssh_port }

/-- `ServerTree._add_server_node` (`server_tree.py`, lines 168–227): the
server node added under the root.  It is added collapsed (`expand=False`);
its eight children are, in source order, `SERVER_INFO`, `SITES_GROUP`
(a group node with no children yet), and the six `add_leaf` resource
leaves, whose `NodeData` carries only `node_type`, `server_id` and `label`
(so `server_ip`/`ssh_port`/… keep the dataclass defaults). -/
def add_server_node (server : Server) : TNode :=
  { label := "[bold]" ++ server.name ++ "[/bold] (" ++ ipDisplay server ++ ")"
    data := some (serverRootData server)
    expanded := false
    children := [
      { label := "ℹ Server Info", data := some (serverInfoData server),
        expanded := false, children := [] },
      { label := "Sites", data := some (sitesGroupData server),
        expanded := false, children := [] },
      { label := "SSH Keys"
        data := some { node_type := .SSH_KEYS, server_id := some server.id, label := "SSH Keys" }
        expanded := false, children := [] },
      { label := "Daemons"
        data := some { node_type := .DAEMONS, server_id := some server.id, label := "Daemons" }
        expanded := false, children := [] },
      { label := "Firewall Rules"
        data := some { node_type := .FIREWALL_RULES, server_id := some server.id, label := "Firewall Rules" }
        expanded := false, children := [] },
      { label := "Scheduled Jobs"
        data := some { node_type := .SCHEDULED_JOBS, server_id := some server.id, label := "Scheduled Jobs" }
        expanded := false, children := [] },
      { label := "Databases"
        data := some { node_type := .DATABASES_SERVER, server_id := some server.id, label := "Databases" }
        expanded := false, children := [] },
      { label := "Database Users"
        data := some { node_type := .DATABASE_USERS, server_id := some server.id, label := "Database Users" }
        expanded := false, children := [] }
    ] }

/-- `ServerTree.populate_servers` (`server_tree.py`, lines 96–101):
`self.clear()` removes every node under the root, the loop appends one
server node per entry of `servers` in order, and `self.root.expand()`
expands the root. -/
def populate_servers (st : ServerTreeState) (servers : List Server) : ServerTreeState :=
  let cleared : ServerTreeState := { st with rootChildren := [] }
  let filled : ServerTreeState :=
    servers.foldl
      (fun acc server => { acc with rootChildren := acc.rootChildren ++ [add_server_node server] })
      cleared
  { filled with rootExpanded := true }

/-- The population loop appends exactly the mapped server nodes, touching
no other field of the tree state. -/
theorem populate_servers_eq (st : ServerTreeState) (servers : List Server) :
    populate_servers st servers =
      { st with rootChildren := servers.map add_server_node, rootExpanded := true } := by
  have h : ∀ (acc : ServerTreeState),
      servers.foldl
        (fun acc server => { acc with rootChildren := acc.rootChildren ++ [add_server_node server] })
        acc =
      { acc with rootChildren := acc.rootChildren ++ servers.map add_server_node } := by
    induction servers with
    | nil => intro acc; simp
    | cons s rest ih =>
        intro acc
        simp only [List.foldl_cons, List.map_cons, ih]
        simp [List.append_assoc]
  simp [populate_servers, h]

/-! ## Site directory derivation (`ServerTree._derive_site_directory`) -/

/-- Python `str.rstrip("/")`: drop all trailing `/` characters. -/
def pyRstripSlash (s : String) : String :=
  String.mk (s.data.reverse.dropWhile (fun c => c = '/')).reverse

/-- Python `str.endswith(sfx)`. -/
def pyEndsWith (s sfx : String) : Bool :=
  sfx.data.isSuffixOf s.data

/-- Python slice `s[: -n]`: for `n = 0` this is `s[:0] = ""`; otherwise it
drops the last `n` characters (empty if `n ≥ len(s)`). -/
def pySliceUpToNeg (s : String) (n : Nat) : String :=
  if n = 0 then "" else String.mk (s.data.take (s.data.length - n))

/-- The body of `ServerTree._derive_site_directory` (`server_tree.py`,
lines 238–246), as a pure function of the three site attributes it reads
(`web_directory`, `directory`, `name`).  If both `web_directory` and
`directory` are truthy and `web_directory` ends with the
trailing-slash-stripped `directory`, that suffix is stripped (and trailing
slashes removed); in every other case the result is the literal
`"/home/forge/" + name`. -/
def derive_site_directory (web_directory directory : Option String) (name : String) : String :=
  if truthyStr web_directory && truthyStr directory then
    let sfx := pyRstripSlash (directory.getD "")
    let w := web_directory.getD ""
    if pyEndsWith w sfx then
      pyRstripSlash (pySliceUpToNeg w sfx.data.length)
    else
      "/home/forge/" ++ name
  else
    "/home/forge/" ++ name

/-- The attribute names a `models.Site` instance actually has: exactly the
declared fields (`models.py`, lines 60–88).  With `extra="ignore"`,
pydantic discards unknown response keys instead of storing them, and
reading any name outside this list raises `AttributeError`. -/
def siteAttrNames : List String :=
  ["id", "server_id", "name", "directory", "repository",
   "repository_provider", "repository_branch", "repository_status",
   "quick_deploy", "deployment_url", "status", "project_type",
   "php_version", "app", "wildcards", "aliases", "is_secured", "tags"]

/-- Pydantic attribute lookup on `models.Site`: succeeds exactly on the
declared field names, raises `AttributeError` otherwise. -/
def siteCheckAttr (a : String) : Except PyExc Unit :=
  if a ∈ siteAttrNames then .ok () else .error .attributeError

/-- `ServerTree._derive_site_directory` applied to an actual `models.Site`
value.  The first expression of the body, `if site.web_directory and
site.directory:`, reads `site.web_directory`; `models.Site` declares no
such field, so for every `models.Site` this access raises `AttributeError`
before either branch is reached.  (Were the attribute present — the model
of a site with no web directory would read `None` — the body would
continue as `derive_site_directory`.) -/
def derive_site_directory_run (site : Site) : Except PyExc String :=
  match siteCheckAttr "web_directory" with
  | .error e => .error e
  | .ok _ => .ok (derive_site_directory none site.directory site.name)

/-! ## Site nodes (`_add_site_node`, `add_sites_to_node`) -/

/-- The `sub_items` list of `_add_site_node` (`server_tree.py`,
lines 268–281): twelve label/kind pairs in source order. -/
def siteSubItems : List (String × NodeType) :=
  [("ℹ Site Info", .SITE_INFO),
   ("Deployments", .DEPLOYMENTS),
   ("Deployment Script", .DEPLOYMENT_SCRIPT),
   ("Logs", .LOGS),
   ("Environment File", .ENVIRONMENT),
   ("Workers", .WORKERS),
   ("Backups", .BACKUPS),
   ("Domains", .DOMAINS),
   ("Databases", .DATABASES_SITE),
   ("SSL Certificates", .SSL_CERTIFICATES),
   ("Commands", .COMMANDS),
   ("Git Repository", .GIT_REPOSITORY)]

/-- `ServerTree._add_site_node` (`server_tree.py`, lines 248–290), given
the parent `SitesGroup` node's data.  `server_ip`/`ssh_port` are inherited
from that data (`None`/`22` when the parent has no data);
`_derive_site_directory` is called *before* the site node is appended, so
if it raises, no node is added.  On success the `SITE_ROOT` node carries
the derived directory and gets the twelve `sub_items` leaves, each with
the same inherited fields. -/
def add_site_node (parentData : Option NodeData) (site : Site) : Except PyExc TNode :=
  let server_id := site.server_id
  let site_id := some site.id
  let server_ip := match parentData with
    | some d => d.server_ip
    | none => none
  let ssh_port := match parentData with
    | some d => d.ssh_port
    | none => 22
  match derive_site_directory_run site with
  | .error e => .error e
  | .ok site_dir =>
      .ok
        { label := site.name
          data := some
            { node_type := .SITE_ROOT, server_id := server_id, site_id := site_id
              label := site.name, server_ip := server_ip, ssh_port := ssh_port
              site_name := some site.name, site_directory := some site_dir }
          expanded := false
          children := siteSubItems.map (fun item =>
            { label := item.1
              data := some
                { node_type := item.2, server_id := server_id, site_id := site_id
                  label := item.1, server_ip := server_ip, ssh_port := ssh_port
                  site_name := some site.name, site_directory := some site_dir }
              expanded := false
              children := [] }) }

/-- The `SitesGroup` tree node as mutated by `add_sites_to_node`: its
attached data and its current children. -/
structure SitesNode where
  data : Option NodeData
  children : List TNode

/-- The `for site in sites:` loop of `add_sites_to_node`.  Each successful
`_add_site_node` appends one child; a raised exception aborts the loop,
leaving the children appended so far in place (mutation already happened)
and propagating the exception. -/
def addSitesLoop (node : SitesNode) : List Site → SitesNode × Option PyExc
  | [] => (node, none)
  | site :: rest =>
      match add_site_node node.data site with
      | .error e => (node, some e)
      | .ok child => addSitesLoop { node with children := node.children ++ [child] } rest

/-- `ServerTree.add_sites_to_node` (`server_tree.py`, lines 229–236): run
the loop; only if it completes without an exception does
`sites_node.data.loaded = True` execute (guarded by `data is not None`).
The second component is the exception propagating out, if any. -/
def add_sites_to_node (node : SitesNode) (sites : List Site) : SitesNode × Option PyExc :=
  match addSitesLoop node sites with
  | (n, some e) => (n, some e)
  | (n, none) =>
      ({ n with data := n.data.map (fun d => { d with loaded := true }) }, none)

/-! ## Effective ip/port resolution (`PhorgeApp._resolve_server_info`) -/

/-- The ancestor-walk loop of `_resolve_server_info` (`app.py`,
lines 100–107): visit the proper ancestors of the selected node from the
parent upwards (the tree root included; its `parent` is `None`, ending the
loop), and stop at the first one whose data is present and whose
`server_ip` is truthy, returning that node's `server_id`, `server_ip` and
`ssh_port`. -/
def walkForIp : List (Option NodeData) → Option (Option Int × Option String × Int)
  | [] => none
  | d :: rest =>
      match d with
      | some nd =>
          if truthyStr nd.server_ip then some (nd.server_id, nd.server_ip, nd.ssh_port)
          else walkForIp rest
      | none => walkForIp rest

/-- The ip/port portion of `PhorgeApp._resolve_server_info` (`app.py`,
lines 96–111) for a selected node with data `nd` and proper-ancestor data
chain `ancestors` (nearest first, root last): start from the node's own
`server_ip`/`ssh_port`; if the ip is not truthy, take them from the
nearest ancestor with a truthy `server_ip`; if that still leaves no truthy
ip, the method notifies and returns `None`.  (The SSH-user and
site-directory parts of the method are independent of this resolution and
are not modelled.) -/
def resolve_ip_port (nd : NodeData) (ancestors : List (Option NodeData)) : Option (String × Int) :=
  let ip := nd.server_ip
  let port := nd.ssh_port
  let resolved :=
    if truthyStr ip then (ip, port)
    else
      match walkForIp ancestors with
      | some (_, aip, aport) => (aip, aport)
      | none => (ip, port)
  if truthyStr resolved.1 then some (resolved.1.getD "", resolved.2) else none

/-- The SSH-user state of `PhorgeApp` (`app.py`, lines 42–43):
`ssh_user` defaults to `"forge"`, `server_users` is a per-server override
map keyed by the stringified server id. -/
structure AppSshState where
  ssh_user : String := "forge"
  server_users : List (String × String) := []

/-- `PhorgeApp.get_ssh_user` (`app.py`, lines 57–59):
`self.server_users.get(str(server_id), self.ssh_user)`. -/
def get_ssh_user (app : AppSshState) (server_id : Int) : String :=
  match app.server_users.lookup (toString server_id) with
  | some u => u
  | none => app.ssh_user

/-! ## Detail panel (`detail_panel.py`) -/

/-- The panel classes imported by `_get_panel_class`
(`detail_panel.py`, lines 57–74). -/
inductive PanelClass where
  | serverInfoPanel
  | siteInfoPanel
  | deploymentsPanel
  | deploymentScriptPanel
  | logsPanel
  | environmentPanel
  | workersPanel
  | backupsPanel
  | domainsPanel
  | databasesPanel
  | databaseUsersPanel
  | sslPanel
  | commandsPanel
  | gitPanel
  | sshKeysPanel
  | daemonsPanel
  | firewallPanel
  | scheduledJobsPanel
  deriving DecidableEq, Repr

/-- `_get_panel_class` (`detail_panel.py`, lines 55–98): the static
registry from node type to panel class.  The three group kinds
(`SERVER_ROOT`, `SITE_ROOT`, `SITES_GROUP`) are absent from the registry
dictionary, so `registry.get` returns `None` for them. -/
def get_panel_class : NodeType → Option PanelClass
  | .SERVER_INFO => some .serverInfoPanel
  | .SITE_INFO => some .siteInfoPanel
  | .DEPLOYMENTS => some .deploymentsPanel
  | .DEPLOYMENT_SCRIPT => some .deploymentScriptPanel
  | .LOGS => some .logsPanel
  | .ENVIRONMENT => some .environmentPanel
  | .WORKERS => some .workersPanel
  | .BACKUPS => some .backupsPanel
  | .DOMAINS => some .domainsPanel
  | .DATABASES_SERVER => some .databasesPanel
  | .DATABASES_SITE => some .databasesPanel
  | .DATABASE_USERS => some .databaseUsersPanel
  | .SSL_CERTIFICATES => some .sslPanel
  | .COMMANDS => some .commandsPanel
  | .GIT_REPOSITORY => some .gitPanel
  | .SSH_KEYS => some .sshKeysPanel
  | .DAEMONS => some .daemonsPanel
  | .FIREWALL_RULES => some .firewallPanel
  | .SCHEDULED_JOBS => some .scheduledJobsPanel
  | .SERVER_ROOT => none
  | .SITE_ROOT => none
  | .SITES_GROUP => none

/-- A widget mounted inside the `DetailPanel`: the compose-time
`#placeholder` `Static`, a constructed view component (`panel_class(
node_data=node_data)`), or the fallback `Static` for an unmapped kind. -/
inductive PanelWidget where
  | placeholder
  | component (cls : PanelClass) (nd : NodeData)
  | fallback (t : NodeType)
  deriving DecidableEq, Repr

/-- Whether a mounted widget matches the `#placeholder` query. -/
def isPlaceholder : PanelWidget → Bool
  | .placeholder => true
  | _ => false

/-- The `DetailPanel` state: the mounted children in mount order and the
`_current_panel` reference. -/
structure DetailPanelState where
  children : List PanelWidget
  current : Option PanelWidget
  deriving DecidableEq, Repr

/-- A freshly composed `DetailPanel`: `__init__` sets
`_current_panel = None` and `compose` mounts the placeholder `Static`. -/
def detailPanelInit : DetailPanelState :=
  { children := [.placeholder], current := none }

/-- `widget.remove()` on a specific mounted widget: delete its (first)
occurrence from the children. -/
def removeWidget (w : PanelWidget) : List PanelWidget → List PanelWidget
  | [] => []
  | x :: xs => if x = w then xs else x :: removeWidget w xs

/-- The widget `show_panel` mounts for `node_data`: the registered view
component when the kind is in the registry, the fallback `Static` naming
the kind otherwise. -/
def showTarget (nd : NodeData) : PanelWidget :=
  match get_panel_class nd.node_type with
  | some cls => .component cls nd
  | none => .fallback nd.node_type

/-- `DetailPanel.show_panel` (`detail_panel.py`, lines 32–52): first
remove `_current_panel` if set (and clear the reference), then remove
every widget matching `#placeholder`, then mount the new widget (view
component or fallback) and make it `_current_panel`. -/
def show_panel (st : DetailPanelState) (nd : NodeData) : DetailPanelState :=
  let afterCurrent :=
    match st.current with
    | some w => removeWidget w st.children
    | none => st.children
  let afterPlaceholder := afterCurrent.filter (fun w => !isPlaceholder w)
  let target := showTarget nd
  { children := afterPlaceholder ++ [target], current := some target }

/-! ## Screen orchestrator (`screens/main.py`) -/

/-- `MainScreen.on_tree_node_selected` (`main.py`, lines 78–88): returns
the `NodeData` passed to `DetailPanel.show_panel`, or `none` when the
handler returns without calling it (missing data, or one of the three
group kinds `SERVER_ROOT`/`SITE_ROOT`/`SITES_GROUP`). -/
def on_tree_node_selected (data : Option NodeData) : Option NodeData :=
  match data with
  | none => none
  | some nd =>
      if nd.node_type = .SERVER_ROOT ∨ nd.node_type = .SITE_ROOT ∨ nd.node_type = .SITES_GROUP then
        none
      else
        some nd

/-- The guard of `MainScreen.on_tree_node_expanded` (`main.py`,
lines 90–96): the expansion triggers `_load_sites` exactly when the node
has data of type `SITES_GROUP` whose `loaded` flag is false. -/
def expandTriggersLoad (data : Option NodeData) : Bool :=
  match data with
  | none => false
  | some nd => nd.node_type = .SITES_GROUP && !nd.loaded

/-- The observable outcome of one asynchronous load routine: the final
sites-group node, whether `self.notify` ran, the exception escaping the
routine's boundary (if any), and how many times `add_sites_to_node` was
invoked. -/
structure SitesLoadResult where
  node : SitesNode
  notified : Bool
  raised : Option PyExc
  addSitesCalls : Nat

/-- `MainScreen._load_sites` (`main.py`, lines 98–106), given the outcome
of the awaited `api.list(server_id)` call.  The `try` block covers both
the fetch and `add_sites_to_node`; the only handler is
`except ForgeAPIError`, which notifies.  Any exception that is not a
`ForgeAPIError` — from the fetch or from `add_sites_to_node` itself —
escapes the routine. -/
def load_sites (node : SitesNode) (fetch : Except PyExc (List Site)) : SitesLoadResult :=
  match fetch with
  | .error e =>
      if e.isForgeAPIError then
        { node := node, notified := true, raised := none, addSitesCalls := 0 }
      else
        { node := node, notified := false, raised := some e, addSitesCalls := 0 }
  | .ok sites =>
      match add_sites_to_node node sites with
      | (n, none) => { node := n, notified := false, raised := none, addSitesCalls := 1 }
      | (n, some e) =>
          if e.isForgeAPIError then
            { node := n, notified := true, raised := none, addSitesCalls := 1 }
          else
            { node := n, notified := false, raised := some e, addSitesCalls := 1 }

/-- The observable outcome of `MainScreen._load_server_with_sites`
(`main.py`, lines 63–76), given the combined outcome of its awaited `try`
body (the `api.list` fetch and `tree.populate_server`).  The routine has
handlers for both `ForgeAPIError` and generic `Exception`; each notifies,
and neither re-raises, so no exception ever escapes.  The `finally` block
always clears the tree's loading indicator. -/
def load_server_with_sites (body : Except PyExc Unit) :
    (Bool × Option PyExc × Bool) :=
  match body with
  | .ok _ => (false, none, true)
  | .error _ => (true, none, true)

/-! ## Claim theorems -/

/-- C1: for every server list, `populate_servers` clears the tree and
produces exactly one top-level server node per server, in input order;
each server node is collapsed, tagged `SERVER_ROOT` with the server's
data, and has exactly eight children whose kinds appear in the fixed order
`SERVER_INFO, SITES_GROUP, SSH_KEYS, DAEMONS, FIREWALL_RULES,
SCHEDULED_JOBS, DATABASES_SERVER, DATABASE_USERS`, all childless, the
`SITES_GROUP` one with `loaded = false`; afterwards the root is
expanded. -/
theorem populate_servers_structure (st : ServerTreeState) (servers : List Server) :
    (populate_servers st servers).rootExpanded = true ∧
    (populate_servers st servers).rootChildren.length = servers.length ∧
    ∀ (i : Nat) (s : Server), servers[i]? = some s →
      ∃ n : TNode, (populate_servers st servers).rootChildren[i]? = some n ∧
        n.expanded = false ∧
        n.data = some (serverRootData s) ∧
        n.children.map (fun c => c.data.map NodeData.node_type) =
          [some .SERVER_INFO, some .SITES_GROUP, some .SSH_KEYS, some .DAEMONS,
           some .FIREWALL_RULES, some .SCHEDULED_JOBS, some .DATABASES_SERVER,
           some .DATABASE_USERS] ∧
        ∀ c ∈ n.children,
          c.children = [] ∧
          ∀ d : NodeData, c.data = some d → d.node_type = .SITES_GROUP → d.loaded = false := by
  rw [populate_servers_eq]
  refine ⟨rfl, by simp, ?_⟩
  intro i s hs
  refine ⟨add_server_node s, ?_, rfl, rfl, rfl, ?_⟩
  · simp [List.getElem?_map, hs]
  · intro c hc
    simp only [add_server_node, List.mem_cons, List.not_mem_nil, or_false] at hc
    rcases hc with rfl | rfl | rfl | rfl | rfl | rfl | rfl | rfl <;>
      refine ⟨rfl, ?_⟩ <;> intro d hd ht <;>
      (cases hd) <;>
      simp_all [serverInfoData, sitesGroupData]

/-- Witness for C1 at a concrete one-server list. -/
theorem populate_servers_structure_witness :
    ∃ n : TNode,
      (populate_servers serverTreeInit
        [{ id := 1, name := "web-1", ip_address := some "10.0.0.1" }]).rootChildren[0]? = some n ∧
      n.expanded = false ∧
      n.data = some (serverRootData { id := 1, name := "web-1", ip_address := some "10.0.0.1" }) ∧
      n.children.map (fun c => c.data.map NodeData.node_type) =
        [some .SERVER_INFO, some .SITES_GROUP, some .SSH_KEYS, some .DAEMONS,
         some .FIREWALL_RULES, some .SCHEDULED_JOBS, some .DATABASES_SERVER,
         some .DATABASE_USERS] ∧
      ∀ c ∈ n.children,
        c.children = [] ∧
        ∀ d : NodeData, c.data = some d → d.node_type = .SITES_GROUP → d.loaded = false :=
  (populate_servers_structure serverTreeInit
    [{ id := 1, name := "web-1", ip_address := some "10.0.0.1" }]).2.2 0
    { id := 1, name := "web-1", ip_address := some "10.0.0.1" } rfl

/-- C8: `populate_servers` is idempotent — running it twice with the same
list leaves exactly the tree a single run produces (the old nodes are
discarded wholesale by `clear()`). -/
theorem populate_servers_idempotent (st : ServerTreeState) (servers : List Server) :
    populate_servers (populate_servers st servers) servers = populate_servers st servers := by
  simp [populate_servers_eq]

/-- C2, evaluation at the failing input: adding one site to a freshly
populated server's `SitesGroup` node raises `AttributeError` (the
`site.web_directory` read in `_derive_site_directory`), so the node comes
back unchanged — zero children and `loaded` still false — instead of
gaining a `SITE_ROOT` child and `loaded = true` as the claim (and the
repository's own tests) state. -/
theorem add_sites_to_node_attribute_error :
    add_sites_to_node
      { data := some (sitesGroupData { id := 1, name := "web-1", ip_address := some "10.0.0.1" })
        children := [] }
      [{ id := 10, server_id := some 1, name := "example.com" }] =
      ({ data := some (sitesGroupData { id := 1, name := "web-1", ip_address := some "10.0.0.1" })
         children := [] }, some PyExc.attributeError) := by
  rfl

/-- C3, counterexample: `_derive_site_directory` never consults the
configured SSH user.  With the app configured with `ssh_user = "admin"`,
a site named `example.com` with no web directory derives
`/home/forge/example.com`, not `/home/admin/example.com`; moreover, run
on an actual `models.Site` value the function raises `AttributeError`
outright, because the model has no `web_directory` field. -/
theorem derive_site_directory_counterexample :
    get_ssh_user { ssh_user := "admin", server_users := [] } 1 = "admin" ∧
    derive_site_directory none none "example.com" = "/home/forge/example.com" ∧
    derive_site_directory none none "example.com" ≠
      "/home/" ++ get_ssh_user { ssh_user := "admin", server_users := [] } 1 ++ "/example.com" ∧
    derive_site_directory_run { id := 10, server_id := some 1, name := "example.com" } =
      .error .attributeError := by
  refine ⟨rfl, rfl, by decide, rfl⟩

/-- C3 as amended: for a site whose web-directory attribute is
`/home/forge/example.com/public` with relative public path `public`, the
derivation body yields `/home/forge/example.com`; for a site with no web
directory it yields the fixed path `/home/forge/<site_name>` — the
literal user `forge`, independent of any configured SSH user. -/
theorem derive_site_directory_amended (name : String) (directory : Option String) :
    derive_site_directory (some "/home/forge/example.com/public") (some "public") "example.com" =
      "/home/forge/example.com" ∧
    derive_site_directory none directory name = "/home/forge/" ++ name := by
  exact ⟨by decide, rfl⟩

/-- C4, counterexample: the claim quantifies over servers with *non-null*
ip, but resolution uses Python truthiness, so for a server whose ip is the
non-null empty string `""` the `SERVER_INFO` descendant resolves to
nothing at all (the method reports "Could not determine server IP")
rather than to `("", 2222)`. -/
theorem resolve_ip_port_counterexample :
    (Server.ip_address { id := 1, name := "web-1", ip_address := some "", ssh_port := 2222 }) =
      some "" ∧
    (add_server_node { id := 1, name := "web-1", ip_address := some "", ssh_port := 2222 }).children[0]? =
      some { label := "ℹ Server Info"
             data := some (serverInfoData { id := 1, name := "web-1", ip_address := some "", ssh_port := 2222 })
             expanded := false, children := [] } ∧
    resolve_ip_port
      (serverInfoData { id := 1, name := "web-1", ip_address := some "", ssh_port := 2222 })
      [(add_server_node { id := 1, name := "web-1", ip_address := some "", ssh_port := 2222 }).data,
       none] = none ∧
    (none : Option (String × Int)) ≠ some ("", 2222) := by
  refine ⟨rfl, rfl, by decide, by decide⟩

/-- C4 as amended: for every server in the populated list whose ip is
present *and non-empty* (truthy) with value `X` and ssh port `P`, every
child of that server's node resolves its effective ip/port — own fields if
the ip is set, otherwise the nearest ancestor carrying a truthy
`server_ip` — to exactly `(X, P)`. -/
theorem resolve_ip_port_propagation (st : ServerTreeState) (servers : List Server)
    (i : Nat) (s : Server) (hs : servers[i]? = some s)
    (X : String) (hip : s.ip_address = some X) (hne : X ≠ "") :
    ∃ n : TNode, (populate_servers st servers).rootChildren[i]? = some n ∧
      n.data = some (serverRootData s) ∧
      ∀ c ∈ n.children, ∀ d : NodeData, c.data = some d →
        resolve_ip_port d (n.data :: st.rootData :: []) = some (X, s.ssh_port) := by
  rw [populate_servers_eq]
  refine ⟨add_server_node s, by simp [List.getElem?_map, hs], rfl, ?_⟩
  intro c hc d hd
  simp only [add_server_node, List.mem_cons, List.not_mem_nil, or_false] at hc
  rcases hc with rfl | rfl | rfl | rfl | rfl | rfl | rfl | rfl <;>
    (cases hd) <;>
    simp [resolve_ip_port, walkForIp, serverRootData, serverInfoData, sitesGroupData,
      add_server_node, truthyStr, hip, hne]

/-- Witness for C4 (amended) at a concrete server with a truthy ip. -/
theorem resolve_ip_port_propagation_witness :
    ∃ n : TNode,
      (populate_servers serverTreeInit
        [{ id := 1, name := "web-1", ip_address := some "10.0.0.1", ssh_port := 2222 }]).rootChildren[0]? =
        some n ∧
      n.data = some (serverRootData
        { id := 1, name := "web-1", ip_address := some "10.0.0.1", ssh_port := 2222 }) ∧
      ∀ c ∈ n.children, ∀ d : NodeData, c.data = some d →
        resolve_ip_port d (n.data :: serverTreeInit.rootData :: []) = some ("10.0.0.1", 2222) :=
  resolve_ip_port_propagation serverTreeInit
    [{ id := 1, name := "web-1", ip_address := some "10.0.0.1", ssh_port := 2222 }] 0
    { id := 1, name := "web-1", ip_address := some "10.0.0.1", ssh_port := 2222 } rfl
    "10.0.0.1" rfl (by decide)

/-- C5: expanding an unloaded `SitesGroup` node triggers the sites load;
when the fetch raises any typed API error (e.g. `ForgeNotFoundError`) the
routine notifies, raises nothing further, and leaves the node untouched —
`loaded` still false and still zero children — so a subsequent expansion
triggers the load again; when the fetch succeeds, the same routine calls
`add_sites_to_node` exactly once. -/
theorem load_sites_error_leaves_retryable (node : SitesNode) (nd : NodeData) (e : PyExc)
    (sites : List Site)
    (hdata : node.data = some nd)
    (htype : nd.node_type = .SITES_GROUP)
    (hloaded : nd.loaded = false)
    (hchildren : node.children = [])
    (he : e.isForgeAPIError = true) :
    expandTriggersLoad node.data = true ∧
    (load_sites node (.error e)).notified = true ∧
    (load_sites node (.error e)).raised = none ∧
    (load_sites node (.error e)).addSitesCalls = 0 ∧
    (load_sites node (.error e)).node = node ∧
    (load_sites node (.error e)).node.children = [] ∧
    expandTriggersLoad (load_sites node (.error e)).node.data = true ∧
    (load_sites node (.ok sites)).addSitesCalls = 1 := by
  refine ⟨?_, ?_, ?_, ?_, ?_, ?_, ?_, ?_⟩
  · simp [expandTriggersLoad, hdata, htype, hloaded]
  · simp [load_sites, he]
  · simp [load_sites, he]
  · simp [load_sites, he]
  · simp [load_sites, he]
  · simp [load_sites, he, hchildren]
  · simp [load_sites, he, expandTriggersLoad, hdata, htype, hloaded]
  · cases hv : add_sites_to_node node sites with
    | mk n oe =>
        cases oe with
        | none => simp [load_sites, hv]
        | some e2 =>
            by_cases h2 : e2.isForgeAPIError <;> simp [load_sites, hv, h2]

/-- Witness for C5 at a concrete unloaded `SitesGroup` node and a
`ForgeNotFoundError` fetch. -/
theorem load_sites_error_leaves_retryable_witness :
    expandTriggersLoad
      (SitesNode.data
        { data := some (sitesGroupData { id := 1, name := "web-1", ip_address := some "10.0.0.1" })
          children := [] }) = true ∧
    (load_sites
      { data := some (sitesGroupData { id := 1, name := "web-1", ip_address := some "10.0.0.1" })
        children := [] }
      (.error .forgeNotFoundError)).notified = true ∧
    (load_sites
      { data := some (sitesGroupData { id := 1, name := "web-1", ip_address := some "10.0.0.1" })
        children := [] }
      (.error .forgeNotFoundError)).raised = none ∧
    (load_sites
      { data := some (sitesGroupData { id := 1, name := "web-1", ip_address := some "10.0.0.1" })
        children := [] }
      (.error .forgeNotFoundError)).addSitesCalls = 0 ∧
    (load_sites
      { data := some (sitesGroupData { id := 1, name := "web-1", ip_address := some "10.0.0.1" })
        children := [] }
      (.error .forgeNotFoundError)).node =
      { data := some (sitesGroupData { id := 1, name := "web-1", ip_address := some "10.0.0.1" })
        children := [] } ∧
    (load_sites
      { data := some (sitesGroupData { id := 1, name := "web-1", ip_address := some "10.0.0.1" })
        children := [] }
      (.error .forgeNotFoundError)).node.children = [] ∧
    expandTriggersLoad
      (load_sites
        { data := some (sitesGroupData { id := 1, name := "web-1", ip_address := some "10.0.0.1" })
          children := [] }
        (.error .forgeNotFoundError)).node.data = true ∧
    (load_sites
      { data := some (sitesGroupData { id := 1, name := "web-1", ip_address := some "10.0.0.1" })
        children := [] }
      (.ok [])).addSitesCalls = 1 :=
  load_sites_error_leaves_retryable
    { data := some (sitesGroupData { id := 1, name := "web-1", ip_address := some "10.0.0.1" })
      children := [] }
    (sitesGroupData { id := 1, name := "web-1", ip_address := some "10.0.0.1" })
    .forgeNotFoundError [] rfl rfl rfl rfl rfl

/-- The detail-panel states reachable from the composed panel: either the
initial state, or exactly one non-placeholder widget is mounted and
`_current_panel` points at it. -/
def DetailReachable (st : DetailPanelState) : Prop :=
  st = detailPanelInit ∨
    ∃ w : PanelWidget, st.children = [w] ∧ st.current = some w ∧ isPlaceholder w = false

/-- The widget `show_panel` mounts is never the placeholder. -/
theorem showTarget_not_placeholder (nd : NodeData) : isPlaceholder (showTarget nd) = false := by
  cases h : get_panel_class nd.node_type <;> simp [showTarget, h, isPlaceholder]

/-- From any reachable state, `show_panel` ends with exactly the new
widget mounted and current. -/
theorem show_panel_of_reachable {st : DetailPanelState} (h : DetailReachable st)
    (nd : NodeData) :
    show_panel st nd = { children := [showTarget nd], current := some (showTarget nd) } := by
  rcases h with rfl | ⟨w, hc, hcur, _⟩
  · simp [show_panel, detailPanelInit, isPlaceholder]
  · simp [show_panel, hc, hcur, removeWidget]

/-- Every sequence of `show_panel` calls from the composed panel stays in
the reachable set. -/
theorem foldl_show_panel_reachable (selections : List NodeData) :
    DetailReachable (selections.foldl show_panel detailPanelInit) := by
  have step : ∀ (st : DetailPanelState) (sel : List NodeData), DetailReachable st →
      DetailReachable (sel.foldl show_panel st) := by
    intro st sel
    induction sel generalizing st with
    | nil => intro h; exact h
    | cons nd rest ih =>
        intro h
        have h2 : DetailReachable (show_panel st nd) := by
          rw [show_panel_of_reachable h nd]
          exact Or.inr ⟨showTarget nd, rfl, rfl, showTarget_not_placeholder nd⟩
        simpa using ih (show_panel st nd) h2
  exact step detailPanelInit selections (Or.inl rfl)

/-- C6: after any `show_panel` call — no matter what sequence of earlier
calls preceded it — exactly one child widget is mounted in the detail
panel: the view component registered for the node's kind (or the fallback
for an unmapped kind).  The previously mounted component and the initial
placeholder are always removed first, so no two view components are ever
mounted simultaneously. -/
theorem show_panel_single_mount (selections : List NodeData) (nd : NodeData) :
    (show_panel (selections.foldl show_panel detailPanelInit) nd).children = [showTarget nd] ∧
    (show_panel (selections.foldl show_panel detailPanelInit) nd).current = some (showTarget nd) ∧
    (show_panel (selections.foldl show_panel detailPanelInit) nd).children.length = 1 := by
  rw [show_panel_of_reachable (foldl_show_panel_reachable selections) nd]
  exact ⟨rfl, rfl, rfl⟩

/-- C7, counterexample: a generic (non-`ForgeAPIError`) exception inside
the lazy sites load — here, the very `AttributeError` that
`add_sites_to_node` raises — escapes `_load_sites`, whose only handler is
`except ForgeAPIError`; the routine neither notifies nor contains it, so
not every core-level asynchronous load catches all errors. -/
theorem load_sites_generic_exception_escapes :
    PyExc.isForgeAPIError .otherError = false ∧
    (load_sites
      { data := some (sitesGroupData { id := 1, name := "web-1", ip_address := some "10.0.0.1" })
        children := [] }
      (.error .otherError)).raised = some .otherError ∧
    (load_sites
      { data := some (sitesGroupData { id := 1, name := "web-1", ip_address := some "10.0.0.1" })
        children := [] }
      (.error .otherError)).notified = false := by
  refine ⟨rfl, rfl, rfl⟩

/-- C7 as amended: the initial/refresh tree-population load
(`_load_server_with_sites`) catches every error — typed API errors and
generic exceptions alike — converts it to a notification and never
re-raises; the lazy sites load (`_load_sites`) catches and notifies only
the typed `ForgeAPIError` family, and lets any other exception propagate
past its boundary. -/
theorem async_load_error_boundaries (e : PyExc) (node : SitesNode) :
    load_server_with_sites (.error e) = (true, none, true) ∧
    (load_sites node (.error e)).raised = (if e.isForgeAPIError then none else some e) ∧
    (load_sites node (.error e)).notified = e.isForgeAPIError := by
  refine ⟨rfl, ?_, ?_⟩ <;> by_cases h : e.isForgeAPIError = true <;>
    simp_all [load_sites]

/-- C9: selecting a node of one of the three group kinds (`SERVER_ROOT`,
`SITE_ROOT`, `SITES_GROUP`) never invokes the detail panel's
`show_panel`; selecting a node of any other kind with non-null data
invokes it with exactly that node's data. -/
theorem on_tree_node_selected_filtering (nd : NodeData) :
    ((nd.node_type = .SERVER_ROOT ∨ nd.node_type = .SITE_ROOT ∨ nd.node_type = .SITES_GROUP) →
      on_tree_node_selected (some nd) = none) ∧
    (¬(nd.node_type = .SERVER_ROOT ∨ nd.node_type = .SITE_ROOT ∨ nd.node_type = .SITES_GROUP) →
      on_tree_node_selected (some nd) = some nd) := by
  constructor <;> intro h <;> simp [on_tree_node_selected, h]

/-- Witness for C9: a `SITES_GROUP` selection is filtered, a
`DEPLOYMENTS` selection is forwarded. -/
theorem on_tree_node_selected_filtering_witness :
    on_tree_node_selected
      (some (sitesGroupData { id := 1, name := "web-1", ip_address := some "10.0.0.1" })) = none ∧
    on_tree_node_selected (some { node_type := .DEPLOYMENTS, server_id := some 1 }) =
      some { node_type := .DEPLOYMENTS, server_id := some 1 } :=
  ⟨(on_tree_node_selected_filtering
      (sitesGroupData { id := 1, name := "web-1", ip_address := some "10.0.0.1" })).1
      (Or.inr (Or.inr rfl)),
   (on_tree_node_selected_filtering { node_type := .DEPLOYMENTS, server_id := some 1 }).2
      (by decide)⟩

/-- C10: in multi-server population the six server-level resource leaves
(`SSH_KEYS, DAEMONS, FIREWALL_RULES, SCHEDULED_JOBS, DATABASES_SERVER,
DATABASE_USERS`) are constructed with `server_ip = none` and
`ssh_port = 22` in their own `NodeData`, regardless of the owning
server's actual ip and port; only the `SERVER_ROOT`, `SERVER_INFO` and
`SITES_GROUP` nodes carry the server's values directly, and for those six
leaves the server's (truthy) ip and port are recovered by the ancestor
walk. -/
theorem server_resource_leaves_defaults (s : Server) :
    ((add_server_node s).children.drop 2).map
        (fun c => c.data.map (fun d => (d.node_type, d.server_ip, d.ssh_port))) =
      [some (.SSH_KEYS, none, 22), some (.DAEMONS, none, 22),
       some (.FIREWALL_RULES, none, 22), some (.SCHEDULED_JOBS, none, 22),
       some (.DATABASES_SERVER, none, 22), some (.DATABASE_USERS, none, 22)] ∧
    ((add_server_node s).data.map (fun d => (d.server_ip, d.ssh_port))) =
      some (s.ip_address, s.ssh_port) ∧
    ((add_server_node s).children.take 2).map
        (fun c => c.data.map (fun d => (d.node_type, d.server_ip, d.ssh_port))) =
      [some (.SERVER_INFO, s.ip_address, s.ssh_port),
       some (.SITES_GROUP, s.ip_address, s.ssh_port)] ∧
    ∀ X : String, s.ip_address = some X → X ≠ "" →
      ∀ c ∈ (add_server_node s).children.drop 2, ∀ d : NodeData, c.data = some d →
        ∀ rest : List (Option NodeData),
          resolve_ip_port d ((add_server_node s).data :: rest) = some (X, s.ssh_port) := by
  refine ⟨rfl, rfl, rfl, ?_⟩
  intro X hip hne c hc d hd rest
  simp only [add_server_node, List.drop, List.mem_cons, List.not_mem_nil, or_false] at hc
  rcases hc with rfl | rfl | rfl | rfl | rfl | rfl <;>
    (cases hd) <;>
    simp [resolve_ip_port, walkForIp, serverRootData, add_server_node, truthyStr, hip, hne]

/-- Witness for C10 at a concrete server with a truthy ip and
non-default port: the `SSH_KEYS` leaf itself holds `none`/`22`, but the
walk recovers `("10.0.0.1", 2222)`. -/
theorem server_resource_leaves_defaults_witness :
    resolve_ip_port
      { node_type := .SSH_KEYS, server_id := some 1, label := "SSH Keys" }
      ((add_server_node
          { id := 1, name := "web-1", ip_address := some "10.0.0.1", ssh_port := 2222 }).data ::
        [none]) = some ("10.0.0.1", 2222) :=
  (server_resource_leaves_defaults
    { id := 1, name := "web-1", ip_address := some "10.0.0.1", ssh_port := 2222 }).2.2.2
    "10.0.0.1" rfl (by decide)
    { label := "SSH Keys"
      data := some { node_type := .SSH_KEYS, server_id := some 1, label := "SSH Keys" }
      expanded := false, children := [] }
    (by simp [add_server_node])
    { node_type := .SSH_KEYS, server_id := some 1, label := "SSH Keys" } rfl [none]

end Phorge
